import Mathlib

/-!
Verification development for the sarasoobot Telegram bot (src/main.py).

The file shallowly embeds the data-aggregation core of the bot:

* `fetch_prices`  — the price normalization pipeline (main.py lines 151-196),
* `fetch_news`    — the RSS headline aggregator (main.py lines 202-240),
* `is_user_member` / `restricted_handler` — the membership gate
  (main.py lines 118-124 and 284-315),
* `format_time_difference` — the freshness formatter (main.py lines 246-263).

Modelling conventions:
* Python `float` values flowing through the price pipeline are modelled
  exactly as signed decimal fractions `Dec` (sign, mantissa, decimal
  scale); `Dec.toRat` gives the represented rational value.  The float
  parser `pyFloat` models the plain decimal subset of Python `float()`
  (optional sign, digits, at most one dot); exponents, `inf`, `nan`,
  underscores and surrounding whitespace are not modelled, and `%.2f`
  rounding is modelled as round-half-even on the exact decimal value
  (Python rounds the nearest binary double; the two agree on the values
  exercised here and always agree on sign).
* JSON dictionaries are modelled as association lists; a field that may be
  absent is an `Option`.
* `datetime` values are modelled as a clock reading (rational seconds)
  plus an optional UTC-offset (`none` = timezone-naive);
  `datetime.fromisoformat` of the per-instrument `ts` string is not
  modelled (no claim depends on the parsed value) — the raw `ts` string
  is carried through the snapshot.
* Network effects are modelled by passing each fetch's outcome
  (`Except`) as an argument.
-/

/-! ### Generic string helpers -/

/-- Prefix test on character lists (used to model Python's `in` on strings). -/
def listPre : List Char → List Char → Bool
  | [], _ => true
  | _ :: _, [] => false
  | a :: as, b :: bs => a = b && listPre as bs

/-- Substring occurrence test on character lists. -/
def listSub (n : List Char) : List Char → Bool
  | [] => n.isEmpty
  | c :: t => listPre n (c :: t) || listSub n t

/-- Python `needle in hay` on strings: substring containment. -/
def strIn (needle hay : String) : Bool :=
  listSub needle.toList hay.toList

/-- Python `s.replace(",", "")` (main.py line 168): drop every comma. -/
def stripCommas (s : String) : String :=
  String.mk (s.toList.filter (fun c => c ≠ ','))

/-- Python `s.strip()`: remove leading and trailing whitespace. -/
def pyStrip (s : String) : String :=
  String.mk (((s.toList.dropWhile Char.isWhitespace).reverse.dropWhile
    Char.isWhitespace).reverse)

/-! ### Exact decimal arithmetic (the Python floats of the price pipeline) -/

/-- A signed decimal fraction: the value `(-1)^neg * m / 10^s`.  This
represents exactly every numeric value the price pipeline produces from a
plain decimal string. -/
structure Dec where
  neg : Bool
  m : Nat
  s : Nat
deriving DecidableEq

/-- The rational value represented by a `Dec`. -/
def Dec.toRat (d : Dec) : ℚ :=
  (if d.neg then -1 else 1) * (d.m : ℚ) / (10 : ℚ) ^ d.s

/-- Division by 10 (the rial→toman conversion on main.py line 176). -/
def Dec.div10 (d : Dec) : Dec :=
  ⟨d.neg, d.m, d.s + 1⟩

/-- Python `int()` on a float: truncation toward zero. -/
def Dec.trunc (d : Dec) : Int :=
  if d.neg then -(d.m / 10 ^ d.s : Nat) else (d.m / 10 ^ d.s : Nat)

/-- Whether the represented value is non-negative. -/
def Dec.isNonneg (d : Dec) : Bool :=
  !d.neg || d.m == 0

/-- Numeric value of a digit string (most significant digit first). -/
def digitsToNat (l : List Char) : Nat :=
  l.foldl (fun a c => a * 10 + (c.toNat - 48)) 0

/-- Core of the Python `float()` parser, after the optional sign:
digits with at most one decimal dot, at least one digit in total. -/
def pyFloatCore (neg : Bool) (l : List Char) : Option Dec :=
  let ip := l.takeWhile (fun c => c ≠ '.')
  let rest := l.dropWhile (fun c => c ≠ '.')
  match rest with
  | [] =>
    if ip ≠ [] ∧ ip.all Char.isDigit then some ⟨neg, digitsToNat ip, 0⟩ else none
  | _ :: fp =>
    if (ip ≠ [] ∨ fp ≠ []) ∧ ip.all Char.isDigit ∧ fp.all Char.isDigit then
      some ⟨neg, digitsToNat ip * 10 ^ fp.length + digitsToNat fp, fp.length⟩
    else none

/-- Python `float(s)` on the plain decimal fragment: `none` models a raised
`ValueError` (main.py lines 169-172 substitute `0.0` in that case). -/
def pyFloat (s : String) : Option Dec :=
  match s.toList with
  | '-' :: t => pyFloatCore true t
  | '+' :: t => pyFloatCore false t
  | t => pyFloatCore false t

/-- Round `m / 10^p` to the nearest natural number, ties to even (the
rounding applied by `%.2f` formatting, on the magnitude). -/
def roundHalfEvenMag (m p : Nat) : Nat :=
  let q := m / 10 ^ p
  let r := m % 10 ^ p
  if 2 * r < 10 ^ p then q
  else if 10 ^ p < 2 * r then q + 1
  else if q % 2 = 0 then q else q + 1

/-- Insert a thousands separator every three characters, on a least
significant digit first list. -/
def groupRev : List Char → List Char
  | a :: b :: c :: d :: rest => a :: b :: c :: ',' :: groupRev (d :: rest)
  | l => l

/-- Comma-grouped rendering of a digit list (most significant first),
as produced by Python's `{:,}` format for the magnitude. -/
def groupDigits (ds : List Char) : String :=
  String.mk (groupRev ds.reverse).reverse

/-- Python `f"{i:,}"` for an integer. -/
def fmtIntComma (i : Int) : String :=
  (if i < 0 then "-" else "") ++ groupDigits (Nat.toDigits 10 i.natAbs)

/-- Two-digit zero-padded rendering of a natural number below 100. -/
def pad2 (k : Nat) : String :=
  (if k < 10 then "0" else "") ++ String.mk (Nat.toDigits 10 k)

/-- Python `f"{v:,.2f}"` on the decimal value `v`: round to two decimals
(half to even), group the integer part, always print two decimals, keep
the float's sign. -/
def fmt2f (d : Dec) : String :=
  let k := if d.s ≤ 2 then d.m * 10 ^ (2 - d.s) else roundHalfEvenMag d.m (d.s - 2)
  (if d.neg then "-" else "") ++
    groupDigits (Nat.toDigits 10 (k / 100)) ++ "." ++ pad2 (k % 100)

/-! ### Price pipeline (main.py lines 101-196) -/

/-- One entry of the upstream `current` section; `p` and `ts` are the price
and timestamp sub-fields, absent fields are `none`. -/
structure PriceEntry where
  p : Option String
  ts : Option String
deriving DecidableEq

/-- `PRICE_KEYS` (main.py lines 106-110): label → tgju JSON key, in
insertion order. -/
def PRICE_KEYS : List (String × String) :=
  [("قیمت لحظه‌ای دلار", "price_dollar_rl"),
   ("سکه امامی", "sekee_real"),
   ("انس طلا جهانی", "ons")]

/-- Numeric value of one raw price string (main.py lines 167-176): strip
commas, parse as float with `0.0` fallback, divide by 10 unless the key
is `ons`. -/
def parsePriceValue (key s : String) : Dec :=
  let price_clean := stripCommas s
  let value_num := (pyFloat price_clean).getD ⟨false, 0, 0⟩
  if key ≠ "ons" then value_num.div10 else value_num

/-- Display formatting of a numeric price (main.py lines 178-182):
`ons` with two decimals and grouping, everything else as a grouped
truncated integer. -/
def formatPrice (key : String) (v : Dec) : String :=
  if key = "ons" then fmt2f v else fmtIntComma v.trunc

/-- The per-key loop of `fetch_prices` (main.py lines 159-189): for each
configured (label, key) pair look up the entry, fail if the entry or its
`p`/`ts` sub-fields are missing, otherwise normalize and format.  The
result entry is (label, formatted value, raw ts string). -/
def buildQuotes (current : List (String × PriceEntry)) :
    List (String × String) → Except String (List (String × String × String))
  | [] => Except.ok []
  | (label, key) :: rest =>
    match List.lookup key current with
    | none => Except.error ("Missing or malformed data for " ++ key)
    | some entry =>
      match entry.p, entry.ts with
      | some price_str, some ts_str =>
        (buildQuotes current rest).map
          (fun r => (label, formatPrice key (parsePriceValue key price_str), ts_str) :: r)
      | some _, none => Except.error ("Missing or malformed data for " ++ key)
      | none, _ => Except.error ("Missing or malformed data for " ++ key)

/-- The upstream price document: `data.get("current", {})` yields the
`current` association list, or an empty one when the section is absent. -/
structure PriceDoc where
  current : Option (List (String × PriceEntry))
deriving DecidableEq

/-- `fetch_prices` (main.py lines 151-196): build the quote mapping over
`PRICE_KEYS`; any missing entry raises (propagated by the re-raise in the
outer `except` block), producing no partial result. -/
def fetch_prices (doc : PriceDoc) : Except String (List (String × String × String)) :=
  buildQuotes (doc.current.getD []) PRICE_KEYS

/-- Whether an `Except` result is a success. -/
def exceptIsOk {ε α : Type} : Except ε α → Bool
  | Except.ok _ => true
  | Except.error _ => false

/-- The configured key is absent from the `current` section, or its entry
lacks the `p` or `ts` sub-field (the guard on main.py line 161). -/
def entryMissing (current : List (String × PriceEntry)) (key : String) : Bool :=
  match List.lookup key current with
  | none => true
  | some e => e.p.isNone || e.ts.isNone

/-- The configured key has an entry carrying both `p` and `ts`. -/
def entryComplete (current : List (String × PriceEntry)) (key : String) : Bool :=
  match List.lookup key current with
  | none => false
  | some e => e.p.isSome && e.ts.isSome

/-- The raw price string for the key either fails to parse (falling back
to `0.0`) or parses to a non-negative number. -/
def rawNonneg (current : List (String × PriceEntry)) (key : String) : Bool :=
  match List.lookup key current with
  | none => true
  | some e =>
    match e.p with
    | none => true
    | some str => ((pyFloat (stripCommas str)).getD ⟨false, 0, 0⟩).isNonneg

/-- The intermediate `value_num` computed for a configured key
(main.py lines 164-176). -/
def instrumentNumeric (current : List (String × PriceEntry)) (key : String) : Dec :=
  match List.lookup key current with
  | none => ⟨false, 0, 0⟩
  | some e => parsePriceValue key (e.p.getD "0")

/-- Labels of a successful snapshot (empty on failure). -/
def quoteLabels : Except String (List (String × String × String)) → List String
  | Except.ok snap => snap.map (fun q => q.1)
  | Except.error _ => []

deriving instance DecidableEq for Except

/-! ### News aggregator (main.py lines 80-88 and 202-240) -/

/-- One RSS `<item>` node, with the text of its `<title>` and `<link>`
children. -/
structure Item where
  title : String
  link : String
deriving DecidableEq

/-- `NEWS_FEEDS` (main.py lines 80-84): source name → feed URL, in
insertion order. -/
def NEWS_FEEDS : List (String × String) :=
  [("Tasnim", "https://www.tasnimnews.com/fa/rss/feed/0/7/77/اقتصاد-ایران"),
   ("ISNA", "https://www.isna.ir/rss/tp/34"),
   ("IRNA", "https://www.irna.ir/rss")]

/-- `HEADLINES_PER_SOURCE` (main.py line 88). -/
def HEADLINES_PER_SOURCE : Nat := 3

/-- The `economy_keywords` list of `fetch_news` (main.py lines 204-213). -/
def economy_keywords : List String :=
  ["اقتصاد", "اقتصادی", "بانک", "ارز", "پول", "بورس", "سکه", "دلار"]

/-- `any(k in title for k in economy_keywords)` (main.py line 232). -/
def keywordMatch (title : String) : Bool :=
  economy_keywords.any (fun k => strIn k title)

/-- The per-item loop of `fetch_news` for one source (main.py lines
225-235): truncate the item list to `HEADLINES_PER_SOURCE` first, then
trim title and link, and skip an item only when the source is IRNA and
its title matches no economic keyword. -/
def processSource (source : String) (items : List Item) : List (String × String) :=
  (items.take HEADLINES_PER_SOURCE).filterMap (fun it =>
    let title := pyStrip it.title
    let link := pyStrip it.link
    if source == "IRNA" && !(keywordMatch title) then none
    else some (title, link))

/-- Headlines one source contributes, given its fetch/parse outcome: an
exception is caught and logged, contributing nothing (main.py lines
237-238). -/
def sourceContribution (fetched : String → Except Unit (List Item)) (source : String) :
    List (String × String) :=
  match fetched source with
  | Except.error _ => []
  | Except.ok items => processSource source items

/-- `fetch_news` (main.py lines 202-240): concatenate every source's
contribution in `NEWS_FEEDS` order, then truncate the digest to
`HEADLINES_PER_SOURCE * len(NEWS_FEEDS)` entries. -/
def fetch_news (fetched : String → Except Unit (List Item)) : List (String × String) :=
  ((NEWS_FEEDS.map (fun sp => sourceContribution fetched sp.1)).flatten).take
    (HEADLINES_PER_SOURCE * NEWS_FEEDS.length)

/-- IRNA feed whose economic items all sit after the first
`HEADLINES_PER_SOURCE` positions (counterexample input). -/
def irnaLateItems : List Item :=
  [⟨"خبر یک", "https://www.irna.ir/news/1"⟩,
   ⟨"خبر دو", "https://www.irna.ir/news/2"⟩,
   ⟨"خبر سه", "https://www.irna.ir/news/3"⟩,
   ⟨"اقتصاد ایران", "https://www.irna.ir/news/4"⟩,
   ⟨"بورس امروز", "https://www.irna.ir/news/5"⟩,
   ⟨"دلار و سکه", "https://www.irna.ir/news/6"⟩]

/-- Fetch outcome where only IRNA succeeds, with `irnaLateItems`. -/
def irnaOnlyFeed (source : String) : Except Unit (List Item) :=
  if source = "IRNA" then Except.ok irnaLateItems else Except.error ()

/-- Fetch outcome where only Tasnim succeeds, with one item whose title is
whitespace (counterexample input). -/
def blankTitleFeed (source : String) : Except Unit (List Item) :=
  if source = "Tasnim" then Except.ok [⟨"   ", "https://example.com/a"⟩]
  else Except.error ()

/-- Fetch outcome where only Tasnim succeeds, with one item whose title
and link are both whitespace. -/
def blankItemFeed (source : String) : Except Unit (List Item) :=
  if source = "Tasnim" then Except.ok [⟨" ", " "⟩] else Except.error ()

/-! ### Access gate (main.py lines 118-124 and 284-315) -/

/-- Outcome of `bot.get_chat_member`: a status string, or a raised
exception. -/
inductive MemberResult : Type
  | ok (status : String)
  | err
deriving DecidableEq

/-- The status whitelist on main.py line 121. -/
def allowedStatuses : List String :=
  ["member", "creator", "administrator"]

/-- `is_user_member` (main.py lines 118-124): `True` exactly when the
lookup succeeded with a whitelisted status; any exception is caught and
yields `False`. -/
def is_user_member : MemberResult → Bool
  | MemberResult.ok status => decide (status ∈ allowedStatuses)
  | MemberResult.err => false

/-- What `restricted_handler` does with a message. -/
inductive HandlerAction : Type
  | deny
  | sendWelcome
  | runPrice
  | runNews
  | noop
deriving DecidableEq

/-- `restricted_handler` (main.py lines 284-315): non-members get the
join-channel reply and the handler returns before any command dispatch;
members are routed on the exact message text. -/
def restricted_handler (membership : MemberResult) (text : String) : HandlerAction :=
  if !(is_user_member membership) then HandlerAction.deny
  else if text = "/start" then HandlerAction.sendWelcome
  else if text = "/price" then HandlerAction.runPrice
  else if text = "/news" then HandlerAction.runNews
  else HandlerAction.noop

/-! ### Freshness formatter (main.py lines 246-263) -/

/-- A Python `datetime`: a clock reading in seconds together with an
optional UTC offset in seconds (`none` = timezone-naive). -/
structure PyDatetime where
  clock : ℚ
  tzinfo : Option ℚ
deriving DecidableEq

/-- `past.replace(tzinfo=timezone.utc)` applied when the value is naive
(main.py lines 250-251). -/
def normalizeTz (past : PyDatetime) : PyDatetime :=
  if past.tzinfo.isNone then ⟨past.clock, some 0⟩ else past

/-- The absolute instant of an aware datetime, in seconds UTC. -/
def instant (d : PyDatetime) : ℚ :=
  d.clock - d.tzinfo.getD 0

/-- `(now - past).total_seconds() / 60` (main.py line 254), after the
naive-to-UTC normalization; `now` is the current instant in seconds UTC. -/
def diffMinutes (past : PyDatetime) (now : ℚ) : ℚ :=
  (now - instant (normalizeTz past)) / 60

/-- Floor of a rational as an integer (`Int.fdiv` floors; `den` is
positive). -/
def myFloor (q : ℚ) : Int :=
  Int.fdiv q.num (q.den : Int)

/-- Python `int()` on a float: truncation toward zero. -/
def pyInt (q : ℚ) : Int :=
  if q < 0 then - myFloor (-q) else myFloor q

/-- `format_time_difference` (main.py lines 246-263).  `int(diff // 60)`
is floor division followed by `int()` of an already integral float, hence
`myFloor (diff / 60)`. -/
def format_time_difference (past : PyDatetime) (now : ℚ) : String :=
  if diffMinutes past now < 1 then "لحظاتی پیش"
  else if diffMinutes past now < 60 then
    toString (pyInt (diffMinutes past now)) ++ " دقیقه پیش"
  else
    toString (myFloor (diffMinutes past now / 60)) ++ " ساعت پیش"

/-- Well-formed concrete upstream document (used as a witness input). -/
def okCurrent : List (String × PriceEntry) :=
  [("price_dollar_rl", ⟨some "1,000,000", some "2024-01-01 10:00:00"⟩),
   ("sekee_real", ⟨some "500,000,000", some "2024-01-01 10:00:00"⟩),
   ("ons", ⟨some "1950.55", some "2024-01-01 10:00:00"⟩)]

/-- Well-formed upstream document whose `ons` price string is negative
(counterexample input). -/
def negCurrent : List (String × PriceEntry) :=
  [("price_dollar_rl", ⟨some "100", some "t1"⟩),
   ("sekee_real", ⟨some "100", some "t2"⟩),
   ("ons", ⟨some "-5", some "t3"⟩)]

/-- Upstream document carrying the spec's two worked price examples. -/
def convCurrent : List (String × PriceEntry) :=
  [("price_dollar_rl", ⟨some "1,234,560", some "t1"⟩),
   ("sekee_real", ⟨some "1,234,560", some "t2"⟩),
   ("ons", ⟨some "1,950.55", some "t3"⟩)]

/-! ### Helper lemmas -/

theorem exceptIsOk_map {ε α β : Type} (f : α → β) (x : Except ε α) :
    exceptIsOk (x.map f) = exceptIsOk x := by
  cases x <;> rfl

theorem map_eq_ok {ε α β : Type} (f : α → β) (x : Except ε α) (b : β)
    (h : x.map f = Except.ok b) : ∃ a, x = Except.ok a ∧ f a = b := by
  cases x with
  | error e => simp [Except.map] at h
  | ok a => refine ⟨a, rfl, ?_⟩; simpa [Except.map] using h

theorem buildQuotes_missing_aux (current : List (String × PriceEntry)) (key : String)
    (hmiss : entryMissing current key = true) :
    ∀ ks : List (String × String), (∃ label, (label, key) ∈ ks) →
      exceptIsOk (buildQuotes current ks) = false := by
  intro ks
  induction ks with
  | nil =>
    rintro ⟨label, hmem⟩
    cases hmem
  | cons hd tl ih =>
    rintro ⟨label, hmem⟩
    obtain ⟨l2, k2⟩ := hd
    rcases List.mem_cons.mp hmem with heq | hmemtl
    · obtain ⟨rfl, rfl⟩ : label = l2 ∧ key = k2 := by
        simpa [Prod.ext_iff] using heq
      cases hlk : List.lookup key current with
      | none => simp [buildQuotes, hlk, exceptIsOk]
      | some e =>
        obtain ⟨op, ots⟩ := e
        unfold entryMissing at hmiss
        rw [hlk] at hmiss
        cases op with
        | none => simp [buildQuotes, hlk, exceptIsOk]
        | some ps =>
          cases ots with
          | none => simp [buildQuotes, hlk, exceptIsOk]
          | some ts => simp at hmiss
    · cases hlk : List.lookup k2 current with
      | none => simp [buildQuotes, hlk, exceptIsOk]
      | some e =>
        obtain ⟨op, ots⟩ := e
        cases op with
        | none => simp [buildQuotes, hlk, exceptIsOk]
        | some ps =>
          cases ots with
          | none => simp [buildQuotes, hlk, exceptIsOk]
          | some ts =>
            have hrec := ih ⟨label, hmemtl⟩
            simp [buildQuotes, hlk, exceptIsOk_map]
            exact hrec

theorem buildQuotes_complete_aux (current : List (String × PriceEntry)) :
    ∀ ks : List (String × String),
      (∀ lk ∈ ks, entryComplete current lk.2 = true) →
      ∃ snap, buildQuotes current ks = Except.ok snap ∧
        snap.map (fun q => q.1) = ks.map (fun lk => lk.1) := by
  intro ks
  induction ks with
  | nil => exact fun _ => ⟨[], rfl, rfl⟩
  | cons hd tl ih =>
    intro h
    obtain ⟨l2, k2⟩ := hd
    have hc := h (l2, k2) (List.mem_cons_self _ _)
    unfold entryComplete at hc
    cases hlk : List.lookup k2 current with
    | none => rw [hlk] at hc; cases hc
    | some e =>
      obtain ⟨op, ots⟩ := e
      rw [hlk] at hc
      cases op with
      | none => simp at hc
      | some ps =>
        cases ots with
        | none => simp at hc
        | some ts =>
          obtain ⟨r, hr, hmap⟩ := ih (fun lk hm => h lk (List.mem_cons_of_mem _ hm))
          refine ⟨(l2, formatPrice k2 (parsePriceValue k2 ps), ts) :: r, ?_, ?_⟩
          · simp [buildQuotes, hlk, hr, Except.map]
          · simp [hmap]

theorem Dec.toRat_nonneg_of_isNonneg (d : Dec) (h : d.isNonneg = true) :
    0 ≤ d.toRat := by
  unfold Dec.isNonneg at h
  unfold Dec.toRat
  cases hn : d.neg with
  | false =>
    simp only [Bool.false_eq_true, if_false, one_mul]
    positivity
  | true =>
    rw [hn] at h
    simp at h
    simp [h]

theorem Dec.toRat_div10 (d : Dec) : d.div10.toRat = d.toRat / 10 := by
  unfold Dec.toRat Dec.div10
  simp only [pow_succ]
  rw [← div_div]

theorem parsePriceValue_nonneg (key s : String)
    (h : ((pyFloat (stripCommas s)).getD ⟨false, 0, 0⟩).isNonneg = true) :
    0 ≤ (parsePriceValue key s).toRat := by
  have h0 : 0 ≤ ((pyFloat (stripCommas s)).getD ⟨false, 0, 0⟩).toRat :=
    Dec.toRat_nonneg_of_isNonneg _ h
  simp only [parsePriceValue]
  split
  · rw [Dec.toRat_div10]
    exact div_nonneg h0 (by norm_num)
  · exact h0

/-! ### Claim theorems -/

/-- Claim C1: if any configured instrument key is absent from the
document's `current` section, or its entry lacks the `p` or `ts`
sub-field, then `fetch_prices` fails with an error and produces no
partial snapshot. -/
theorem fetch_prices_missing_field_fails (doc : PriceDoc) (label key : String)
    (hmem : (label, key) ∈ PRICE_KEYS)
    (hmiss : entryMissing (doc.current.getD []) key = true) :
    exceptIsOk (fetch_prices doc) = false :=
  buildQuotes_missing_aux _ _ hmiss PRICE_KEYS ⟨label, hmem⟩

theorem fetch_prices_missing_field_fails_witness :
    exceptIsOk (fetch_prices ⟨some [("price_dollar_rl", ⟨some "100", some "t"⟩),
      ("sekee_real", ⟨some "100", some "t"⟩)]⟩) = false :=
  fetch_prices_missing_field_fails _ "انس طلا جهانی" "ons" (by decide) (by decide)

/-- Claim C2: each price entry has its commas stripped, is parsed as a
float, divided by 10 for the local-currency keys and left unconverted for
`ons`, and is then formatted — `"1,234,560"` for a local-currency key
displays as `"123,456"` and `"1,950.55"` for `ons` displays as
`"1,950.55"`. -/
theorem fetch_prices_unit_conversion_format :
    (∀ s : String,
      (parsePriceValue "price_dollar_rl" s).toRat = (parsePriceValue "ons" s).toRat / 10) ∧
    (∀ s : String,
      (parsePriceValue "sekee_real" s).toRat = (parsePriceValue "ons" s).toRat / 10) ∧
    formatPrice "price_dollar_rl" (parsePriceValue "price_dollar_rl" "1,234,560") = "123,456" ∧
    formatPrice "ons" (parsePriceValue "ons" "1,950.55") = "1,950.55" ∧
    fetch_prices ⟨some convCurrent⟩ =
      Except.ok [("قیمت لحظه‌ای دلار", "123,456", "t1"), ("سکه امامی", "123,456", "t2"),
        ("انس طلا جهانی", "1,950.55", "t3")] := by
  refine ⟨fun s => ?_, fun s => ?_, by decide, by decide, by decide⟩
  · simp [parsePriceValue, Dec.toRat_div10]
  · simp [parsePriceValue, Dec.toRat_div10]

/-- Claim C3 (amended): on a document carrying `p` and `ts` for every
configured key, `fetch_prices` succeeds and its snapshot's keys are
exactly the configured labels in order; the numeric value of each
instrument is non-negative provided each raw price string fails to parse
(falling back to `0.0`) or parses to a non-negative number — a parsable
negative raw price yields a negative numeric value. -/
theorem fetch_prices_wellformed_snapshot (current : List (String × PriceEntry))
    (hcomp : ∀ lk ∈ PRICE_KEYS, entryComplete current lk.2 = true)
    (hnn : ∀ lk ∈ PRICE_KEYS, rawNonneg current lk.2 = true) :
    exceptIsOk (fetch_prices ⟨some current⟩) = true ∧
    quoteLabels (fetch_prices ⟨some current⟩) = PRICE_KEYS.map (fun lk => lk.1) ∧
    ∀ lk ∈ PRICE_KEYS, 0 ≤ (instrumentNumeric current lk.2).toRat := by
  obtain ⟨snap, hs, hmap⟩ := buildQuotes_complete_aux current PRICE_KEYS hcomp
  have hfp : fetch_prices ⟨some current⟩ = buildQuotes current PRICE_KEYS := rfl
  refine ⟨by rw [hfp, hs]; rfl, by rw [hfp, hs]; exact hmap, ?_⟩
  intro lk hlk
  have hc := hcomp lk hlk
  have hn := hnn lk hlk
  unfold entryComplete at hc
  unfold rawNonneg at hn
  unfold instrumentNumeric
  cases hlkup : List.lookup lk.2 current with
  | none => rw [hlkup] at hc; cases hc
  | some e =>
    obtain ⟨op, ots⟩ := e
    rw [hlkup] at hc hn
    cases op with
    | none => simp at hc
    | some str =>
      simp only at hn
      simpa using parsePriceValue_nonneg lk.2 str hn

theorem fetch_prices_wellformed_snapshot_witness :
    exceptIsOk (fetch_prices ⟨some okCurrent⟩) = true ∧
    quoteLabels (fetch_prices ⟨some okCurrent⟩) = PRICE_KEYS.map (fun lk => lk.1) ∧
    0 ≤ (instrumentNumeric okCurrent "ons").toRat := by
  obtain ⟨h1, h2, h3⟩ := fetch_prices_wellformed_snapshot okCurrent (by decide) (by decide)
  exact ⟨h1, h2, h3 ("انس طلا جهانی", "ons") (by decide)⟩

/-- Claim C3 (counterexample): a well-formed document whose `ons` price
string is `"-5"` still yields a snapshot, but the `ons` numeric value is
negative (and displays as `"-5.00"`) rather than falling back to `0.0`. -/
theorem fetch_prices_negative_price_cex :
    fetch_prices ⟨some negCurrent⟩ =
      Except.ok [("قیمت لحظه‌ای دلار", "10", "t1"), ("سکه امامی", "10", "t2"),
        ("انس طلا جهانی", "-5.00", "t3")] ∧
    (instrumentNumeric negCurrent "ons").toRat < 0 := by
  refine ⟨by decide, ?_⟩
  have h : instrumentNumeric negCurrent "ons" = ⟨true, 5, 0⟩ := by decide
  rw [h]
  norm_num [Dec.toRat]

/-- Claim C4 (counterexample): an IRNA feed holding at least
`HEADLINES_PER_SOURCE` keyword-matching items, all of them after the
first `HEADLINES_PER_SOURCE` positions, contributes no headline at all —
the item list is truncated before the keyword filter runs. -/
theorem fetch_news_late_match_cex :
    HEADLINES_PER_SOURCE ≤
      (irnaLateItems.filter (fun it => keywordMatch (pyStrip it.title))).length ∧
    fetch_news irnaOnlyFeed = [] := by
  decide

/-- Claim C4 (amended): for the flagged source (IRNA) the keyword filter
is evaluated only on the first `HEADLINES_PER_SOURCE` item nodes — every
contributed headline is a trimmed item among those first items whose
title matches a keyword, and items beyond that window are never
consulted, so the source can contribute fewer than `HEADLINES_PER_SOURCE`
matches even when more matches exist later in the feed. -/
theorem fetch_news_filter_after_truncation :
    (∀ (items : List Item) (hl : String × String), hl ∈ processSource "IRNA" items →
      keywordMatch hl.1 = true ∧
        ∃ it ∈ items.take HEADLINES_PER_SOURCE, hl = (pyStrip it.title, pyStrip it.link)) ∧
    (∀ items : List Item,
      processSource "IRNA" items = processSource "IRNA" (items.take HEADLINES_PER_SOURCE)) := by
  constructor
  · intro items hl hmem
    unfold processSource at hmem
    obtain ⟨it, hit, hf⟩ := List.mem_filterMap.mp hmem
    cases hk : keywordMatch (pyStrip it.title) with
    | false => simp [hk] at hf
    | true =>
      simp [hk] at hf
      subst hf
      exact ⟨hk, it, hit, rfl⟩
  · intro items
    unfold processSource
    simp [List.take_take]

theorem fetch_news_filter_after_truncation_witness :
    keywordMatch (("دلار امروز", "L") : String × String).1 = true ∧
    ∃ it ∈ ([⟨"دلار امروز", "L"⟩] : List Item).take HEADLINES_PER_SOURCE,
      (("دلار امروز", "L") : String × String) = (pyStrip it.title, pyStrip it.link) :=
  fetch_news_filter_after_truncation.1 [⟨"دلار امروز", "L"⟩] ("دلار امروز", "L") (by decide)

/-- Claim C5 (counterexample): an item whose title trims to the empty
string is kept, not dropped — the digest contains a headline with an
empty title. -/
theorem fetch_news_blank_title_cex :
    fetch_news blankTitleFeed = [("", "https://example.com/a")] := by
  decide

/-- Claim C5 (amended): every headline is the trimmed title/link pair of
one of its source's first `HEADLINES_PER_SOURCE` items, but no emptiness
check is performed — an item whose title and link both trim to the empty
string still yields a headline. -/
theorem fetch_news_trimmed_not_dropped :
    (∀ (source : String) (items : List Item) (hl : String × String),
        hl ∈ processSource source items →
        ∃ it ∈ items.take HEADLINES_PER_SOURCE, hl = (pyStrip it.title, pyStrip it.link)) ∧
    fetch_news blankItemFeed = [("", "")] := by
  constructor
  · intro source items hl hmem
    unfold processSource at hmem
    obtain ⟨it, hit, hf⟩ := List.mem_filterMap.mp hmem
    refine ⟨it, hit, ?_⟩
    cases hcond : (source == "IRNA" && !(keywordMatch (pyStrip it.title))) with
    | true => simp [hcond] at hf
    | false =>
      simp [hcond] at hf
      exact hf.symm
  · decide

theorem fetch_news_trimmed_not_dropped_witness :
    ∃ it ∈ ([⟨" خبر ", " L "⟩] : List Item).take HEADLINES_PER_SOURCE,
      (("خبر", "L") : String × String) = (pyStrip it.title, pyStrip it.link) :=
  fetch_news_trimmed_not_dropped.1 "Tasnim" [⟨" خبر ", " L "⟩] ("خبر", "L") (by decide)

/-- Claim C6: the gate allows a flow only when the membership lookup
returned a status in {member, creator, administrator}; a raised lookup
error or any other status yields a denial, and a denied request triggers
neither the price nor the news pipeline. -/
theorem gate_fail_closed (m : MemberResult) (text : String)
    (h : ∀ status, m = MemberResult.ok status → status ∉ allowedStatuses) :
    restricted_handler m text = HandlerAction.deny ∧
    restricted_handler m text ≠ HandlerAction.runPrice ∧
    restricted_handler m text ≠ HandlerAction.runNews ∧
    ∀ m2 : MemberResult, is_user_member m2 = true →
      ∃ status, m2 = MemberResult.ok status ∧ status ∈ allowedStatuses := by
  have hm : is_user_member m = false := by
    cases m with
    | err => rfl
    | ok status => simpa [is_user_member] using h status rfl
  have hd : restricted_handler m text = HandlerAction.deny := by
    simp [restricted_handler, hm]
  refine ⟨hd, by rw [hd]; decide, by rw [hd]; decide, ?_⟩
  intro m2 h2
  cases m2 with
  | err => simp [is_user_member] at h2
  | ok status =>
    refine ⟨status, rfl, ?_⟩
    simpa [is_user_member] using h2

theorem gate_fail_closed_witness :
    restricted_handler MemberResult.err "/price" = HandlerAction.deny ∧
    restricted_handler (MemberResult.ok "left") "/news" = HandlerAction.deny :=
  ⟨(gate_fail_closed MemberResult.err "/price"
      (fun _ hs => MemberResult.noConfusion hs)).1,
   (gate_fail_closed (MemberResult.ok "left") "/news"
      (fun _ hs => (MemberResult.ok.inj hs) ▸
        (by decide : ("left" : String) ∉ allowedStatuses))).1⟩

/-- Claim C7: a fetch or parse failure of one feed makes that source
contribute zero headlines — the digest is the same as if the failing feed
were empty, so every other source's headlines are unaffected — each
source contributes at most `HEADLINES_PER_SOURCE` headlines, and
`fetch_news` returns a list rather than propagating the error. -/
theorem fetch_news_failure_isolated (fetched : String → Except Unit (List Item))
    (src : String) (herr : fetched src = Except.error ()) :
    fetch_news fetched =
      fetch_news (fun t => if t = src then Except.ok [] else fetched t) ∧
    ∀ (source : String) (items : List Item),
      (processSource source items).length ≤ HEADLINES_PER_SOURCE := by
  constructor
  · have hpt : ∀ t, sourceContribution (fun u => if u = src then Except.ok [] else fetched u) t
        = sourceContribution fetched t := by
      intro t
      by_cases ht : t = src
      · subst ht
        simp [sourceContribution, herr, processSource]
      · simp [sourceContribution, ht]
    unfold fetch_news
    rw [show (fun sp : String × String =>
        sourceContribution (fun t => if t = src then Except.ok [] else fetched t) sp.1)
      = (fun sp : String × String => sourceContribution fetched sp.1) from
      funext fun sp => hpt sp.1]
  · intro source items
    unfold processSource
    exact le_trans (List.length_filterMap_le _ _) (List.length_take_le _ _)

theorem fetch_news_failure_isolated_witness :
    fetch_news (fun _ => Except.error ()) =
      fetch_news (fun t => if t = "Tasnim" then Except.ok [] else Except.error ()) ∧
    (processSource "ISNA" []).length ≤ HEADLINES_PER_SOURCE :=
  ⟨(fetch_news_failure_isolated (fun _ => Except.error ()) "Tasnim" rfl).1,
   (fetch_news_failure_isolated (fun _ => Except.error ()) "Tasnim" rfl).2 "ISNA" []⟩

/-- Claim C8: the digest never exceeds `HEADLINES_PER_SOURCE` times the
number of configured sources — 3 × 3 = 9 — however many items the feeds
contain. -/
theorem fetch_news_digest_cap (fetched : String → Except Unit (List Item)) :
    (fetch_news fetched).length ≤ HEADLINES_PER_SOURCE * NEWS_FEEDS.length ∧
    HEADLINES_PER_SOURCE * NEWS_FEEDS.length = 9 := by
  constructor
  · unfold fetch_news
    exact List.length_take_le _ _
  · decide

/-- Claim C9: after normalizing a naive timestamp to UTC, a difference
under one minute yields the "moments ago" bucket, under sixty minutes the
integer minute count, and otherwise the floor-divided integer hour
count. -/
theorem format_time_difference_buckets (past : PyDatetime) (now : ℚ) :
    (diffMinutes past now < 1 → format_time_difference past now = "لحظاتی پیش") ∧
    (1 ≤ diffMinutes past now → diffMinutes past now < 60 →
      format_time_difference past now =
        toString (myFloor (diffMinutes past now)) ++ " دقیقه پیش") ∧
    (60 ≤ diffMinutes past now →
      format_time_difference past now =
        toString (myFloor (diffMinutes past now / 60)) ++ " ساعت پیش") := by
  refine ⟨fun h1 => ?_, fun h1 h2 => ?_, fun h1 => ?_⟩
  · unfold format_time_difference
    rw [if_pos h1]
  · unfold format_time_difference
    rw [if_neg (not_lt.mpr h1), if_pos h2]
    have hpy : pyInt (diffMinutes past now) = myFloor (diffMinutes past now) := by
      unfold pyInt
      rw [if_neg (not_lt.mpr (le_trans (by norm_num) h1))]
    rw [hpy]
  · unfold format_time_difference
    rw [if_neg (not_lt.mpr (le_trans (by norm_num) h1)), if_neg (not_lt.mpr h1)]

theorem format_time_difference_buckets_witness :
    format_time_difference ⟨0, none⟩ 30 = "لحظاتی پیش" ∧
    format_time_difference ⟨0, some 0⟩ 2700 = "45 دقیقه پیش" ∧
    format_time_difference ⟨0, none⟩ 10800 = "3 ساعت پیش" := by
  have h2 : diffMinutes ⟨0, some 0⟩ 2700 = 45 := by
    norm_num [diffMinutes, instant, normalizeTz]
  have h3 : diffMinutes ⟨0, none⟩ 10800 = 180 := by
    norm_num [diffMinutes, instant, normalizeTz]
  refine ⟨(format_time_difference_buckets ⟨0, none⟩ 30).1
    (by norm_num [diffMinutes, instant, normalizeTz]), ?_, ?_⟩
  · have hb := (format_time_difference_buckets ⟨0, some 0⟩ 2700).2.1
      (by rw [h2]; norm_num) (by rw [h2]; norm_num)
    rw [h2] at hb
    rw [hb]
    decide
  · have hb := (format_time_difference_buckets ⟨0, none⟩ 10800).2.2
      (by rw [h3]; norm_num)
    rw [h3] at hb
    rw [hb]
    have h60 : (180 : ℚ) / 60 = 3 := by norm_num
    rw [h60]
    decide

/-- Claim C10: on a timestamp strictly in the future the difference is
negative, falling into the under-one-minute branch, so the function
returns the "moments ago" bucket and never a negative minute or hour
count. -/
theorem format_time_difference_future (past : PyDatetime) (now : ℚ)
    (h : now < instant (normalizeTz past)) :
    format_time_difference past now = "لحظاتی پیش" := by
  have hd : diffMinutes past now < 1 := by
    unfold diffMinutes
    have hneg : now - instant (normalizeTz past) < 0 := sub_neg.mpr h
    have hq := div_neg_of_neg_of_pos hneg (by norm_num : (0 : ℚ) < 60)
    linarith
  unfold format_time_difference
  rw [if_pos hd]

theorem format_time_difference_future_witness :
    format_time_difference ⟨60, none⟩ 0 = "لحظاتی پیش" :=
  format_time_difference_future ⟨60, none⟩ 0
    (by norm_num [instant, normalizeTz])
